import Mathlib

/-!
Shallow embedding of the cerno Scan Review & Comparison Engine.

The embedding follows the repository sources:
- `cerno_pkg/cross_scan.py` (`compare_scans`, `get_host_vulnerability_history`),
- `cerno_pkg/fs.py` (`mark_review_complete`, `undo_review_complete`),
- `cerno.py` (session resume/restart logic and elapsed-time display).

The relational store (`database.py`), the row models (`models.py`) and the
workflow mapper (`workflow_mapper.py`) live outside the provided sources;
those parts are modelled from the specification, each marked
`Modelled from the spec:` in its doc comment.  SQL queries appearing as
strings in the sources are embedded as list comprehensions over explicit
table rows; timestamps are modelled as natural-number ticks.
-/

namespace Cerno

/-- A row of the `scans` table: `scan_id`, `scan_name`, `created_at`. -/
structure ScanRow where
  scan_id : Nat
  scan_name : String
  created_at : String
deriving Repr, DecidableEq

/-- A row of the view `v_scan_plugin_summary` as selected by `compare_scans`
(without the `scan_id` key column, which the store pairs it with):
`plugin_id, plugin_name, severity_int, severity_label, has_metasploit,
cvss3_score, affected_hosts`. -/
structure PluginRow where
  plugin_id : Nat
  plugin_name : String
  severity_int : Nat
  severity_label : String
  has_metasploit : Bool
  cvss3_score : Option Rat
  affected_hosts : Nat
deriving Repr, DecidableEq

/-- A row of the `hosts` table as selected by the cross-scan queries. -/
structure HostRow where
  host_id : Nat
  ip_address : String
  scan_target : String
  scan_target_type : String
  first_seen : String
  last_seen : String
deriving Repr, DecidableEq

/-- A row of the `findings` table: the occurrence of a plugin within a scan,
carrying the mutable `review_state`. -/
structure Finding where
  finding_id : Nat
  scan_id : Nat
  plugin_id : Nat
  review_state : String
deriving Repr, DecidableEq

/-- A row of the view `v_host_scan_findings` as selected by
`get_host_vulnerability_history`; the nullable aggregate columns are
`Option` (the source applies `or 0`). -/
structure HostScanRow where
  ip_address : String
  scan_id : Nat
  scan_name : String
  scan_date : String
  finding_count : Nat
  max_severity : Option Nat
  critical_count : Option Nat
  high_count : Option Nat
  medium_count : Option Nat
  low_count : Option Nat
  info_count : Option Nat
deriving Repr, DecidableEq

/-- Modelled from the spec: the Record Store (`database.py` is outside the
provided sources).  Tables `scans`, `hosts`, `findings`, the
`finding_affected_hosts` link table (finding_id, host_id), and the two
read-side views consumed by `cross_scan.py`: `v_scan_plugin_summary`
(rows keyed by scan_id) and `v_host_scan_findings`. -/
structure Store where
  scans : List ScanRow
  hosts : List HostRow
  findings : List Finding
  finding_affected_hosts : List (Nat × Nat)
  scan_plugin_summary : List (Nat × PluginRow)
  host_scan_findings : List HostScanRow

/-- The first query of `compare_scans`:
`SELECT scan_id, scan_name, created_at FROM scans WHERE scan_id = ?`. -/
def lookupScan (db : Store) (sid : Nat) : Option ScanRow :=
  db.scans.find? (fun s => s.scan_id = sid)

/-- The per-scan plugin query of `compare_scans`:
`SELECT ... FROM v_scan_plugin_summary WHERE scan_id = ? AND severity_int >= ?`.
The source additionally orders rows (severity descending, then name);
no stated property observes row order, so the order of the underlying
view rows is kept. -/
def scanPlugins (db : Store) (sid min_severity : Nat) : List PluginRow :=
  (db.scan_plugin_summary.filter
    (fun q => q.1 = sid ∧ min_severity ≤ q.2.severity_int)).map (fun q => q.2)

/-- The plugin-id set of a scan, as built by
`{row["plugin_id"] for row in scan_plugins}`. -/
def scanPluginIds (db : Store) (sid min_severity : Nat) : Finset Nat :=
  ((scanPlugins db sid min_severity).map (fun r => r.plugin_id)).toFinset

/-- The per-scan host query of `compare_scans`:
`SELECT DISTINCT h.host_id, ... FROM hosts h JOIN finding_affected_hosts fah
ON h.host_id = fah.host_id JOIN findings f ON fah.finding_id = f.finding_id
WHERE f.scan_id = ?`: the hosts linked, through some finding of the scan,
to that scan. -/
def scanHosts (db : Store) (sid : Nat) : List HostRow :=
  db.hosts.filter (fun h =>
    db.finding_affected_hosts.any (fun l =>
      l.2 = h.host_id ∧ db.findings.any (fun f =>
        f.finding_id = l.1 ∧ f.scan_id = sid)))

/-- The host-id set of a scan, as built by
`{row["host_id"] for row in scan_hosts}`. -/
def scanHostIds (db : Store) (sid : Nat) : Finset Nat :=
  ((scanHosts db sid).map (fun h => h.host_id)).toFinset

/-- The per-severity count breakdown the source accumulates as a dict
(`d[sev] = d.get(sev, 0) + 1` over the rows of a bucket), exposed as the
resulting count function: how many rows of the bucket have each severity. -/
def severityCounts (rows : List PluginRow) : Nat → Nat :=
  fun sev => (rows.filter (fun r => r.severity_int = sev)).length

/-- The result record of `compare_scans` (dataclass `ScanComparisonResult`). -/
structure ScanComparisonResult where
  scan1_id : Nat
  scan1_name : String
  scan1_date : String
  scan2_id : Nat
  scan2_name : String
  scan2_date : String
  new_findings : List PluginRow
  resolved_findings : List PluginRow
  persistent_findings : List PluginRow
  new_hosts : List HostRow
  removed_hosts : List HostRow
  persistent_hosts : List HostRow
  new_by_severity : Nat → Nat
  resolved_by_severity : Nat → Nat
  persistent_by_severity : Nat → Nat

/-- `total_new` property: `len(self.new_findings)`. -/
def ScanComparisonResult.total_new (r : ScanComparisonResult) : Nat :=
  r.new_findings.length

/-- `total_resolved` property: `len(self.resolved_findings)`. -/
def ScanComparisonResult.total_resolved (r : ScanComparisonResult) : Nat :=
  r.resolved_findings.length

/-- `total_persistent` property: `len(self.persistent_findings)`. -/
def ScanComparisonResult.total_persistent (r : ScanComparisonResult) : Nat :=
  r.persistent_findings.length

/-- `compare_scans(scan_id_1, scan_id_2, min_severity)` from
`cerno_pkg/cross_scan.py`: returns `none` when either scan id is absent,
otherwise classifies plugin ids into new / resolved / persistent by set
difference and intersection, re-hydrates each id from the candidate
(resp. base) rows, tallies per-severity counts, and classifies host ids
the same way (the host queries take no severity filter). -/
def compare_scans (db : Store) (scan_id_1 scan_id_2 : Nat)
    (min_severity : Nat := 0) : Option ScanComparisonResult :=
  match lookupScan db scan_id_1, lookupScan db scan_id_2 with
  | some scan1, some scan2 =>
    let scan1_plugins := scanPlugins db scan_id_1 min_severity
    let scan2_plugins := scanPlugins db scan_id_2 min_severity
    let scan1_plugin_ids := scanPluginIds db scan_id_1 min_severity
    let scan2_plugin_ids := scanPluginIds db scan_id_2 min_severity
    let new_plugin_ids := scan2_plugin_ids \ scan1_plugin_ids
    let resolved_plugin_ids := scan1_plugin_ids \ scan2_plugin_ids
    let persistent_plugin_ids := scan1_plugin_ids ∩ scan2_plugin_ids
    let new_findings := scan2_plugins.filter (fun r => r.plugin_id ∈ new_plugin_ids)
    let resolved_findings := scan1_plugins.filter (fun r => r.plugin_id ∈ resolved_plugin_ids)
    let persistent_findings := scan2_plugins.filter (fun r => r.plugin_id ∈ persistent_plugin_ids)
    let scan1_hosts := scanHosts db scan_id_1
    let scan2_hosts := scanHosts db scan_id_2
    let scan1_host_ids := scanHostIds db scan_id_1
    let scan2_host_ids := scanHostIds db scan_id_2
    let new_host_ids := scan2_host_ids \ scan1_host_ids
    let removed_host_ids := scan1_host_ids \ scan2_host_ids
    let persistent_host_ids := scan1_host_ids ∩ scan2_host_ids
    some
      { scan1_id := scan_id_1
        scan1_name := scan1.scan_name
        scan1_date := scan1.created_at
        scan2_id := scan_id_2
        scan2_name := scan2.scan_name
        scan2_date := scan2.created_at
        new_findings := new_findings
        resolved_findings := resolved_findings
        persistent_findings := persistent_findings
        new_hosts := scan2_hosts.filter (fun h => h.host_id ∈ new_host_ids)
        removed_hosts := scan1_hosts.filter (fun h => h.host_id ∈ removed_host_ids)
        persistent_hosts := scan2_hosts.filter (fun h => h.host_id ∈ persistent_host_ids)
        new_by_severity := severityCounts new_findings
        resolved_by_severity := severityCounts resolved_findings
        persistent_by_severity := severityCounts persistent_findings }
  | _, _ => none

/-- A scan snapshot of `get_host_vulnerability_history`
(dataclass `ScanSnapshot`). -/
structure ScanSnapshot where
  scan_id : Nat
  scan_name : String
  scan_date : String
  finding_count : Nat
  max_severity : Nat
  critical_count : Nat
  high_count : Nat
  medium_count : Nat
  low_count : Nat
  info_count : Nat
  plugin_ids : List Nat
deriving Repr, DecidableEq

/-- The result record of `get_host_vulnerability_history`
(dataclass `HostVulnerabilityHistory`). -/
structure HostVulnerabilityHistory where
  host_id : Nat
  ip_address : String
  scan_target : String
  scan_target_type : String
  first_seen : String
  last_seen : String
  scans : List ScanSnapshot
deriving Repr, DecidableEq

/-- The host-metadata query of `get_host_vulnerability_history`:
`SELECT ... FROM hosts WHERE ip_address = ? ORDER BY last_seen DESC LIMIT 1`.
Hosts are globally deduplicated by address (spec §3), so the
order-by/limit reduces to looking the address up. -/
def lookupHostByIp (db : Store) (ip : String) : Option HostRow :=
  db.hosts.find? (fun h => h.ip_address = ip)

/-- The per-snapshot plugin-id query of `get_host_vulnerability_history`:
`SELECT DISTINCT f.plugin_id FROM findings f JOIN finding_affected_hosts fah
JOIN hosts h WHERE f.scan_id = ? AND h.ip_address = ?` (the source also
orders by plugin id; no stated property observes the order). -/
def hostScanPluginIds (db : Store) (sid : Nat) (ip : String) : List Nat :=
  ((db.findings.filter (fun f => f.scan_id = sid ∧
      db.finding_affected_hosts.any (fun l => l.1 = f.finding_id ∧
        db.hosts.any (fun h => h.host_id = l.2 ∧ h.ip_address = ip)))).map
    (fun f => f.plugin_id)).dedup

/-- Build one `ScanSnapshot` from a `v_host_scan_findings` row, applying the
source's `or 0` defaults on the nullable aggregate columns. -/
def mkSnapshot (db : Store) (row : HostScanRow) (ip : String) : ScanSnapshot :=
  { scan_id := row.scan_id
    scan_name := row.scan_name
    scan_date := row.scan_date
    finding_count := row.finding_count
    max_severity := row.max_severity.getD 0
    critical_count := row.critical_count.getD 0
    high_count := row.high_count.getD 0
    medium_count := row.medium_count.getD 0
    low_count := row.low_count.getD 0
    info_count := row.info_count.getD 0
    plugin_ids := hostScanPluginIds db row.scan_id ip }

/-- `get_host_vulnerability_history(ip_address)` from
`cerno_pkg/cross_scan.py`: `none` when the address is unknown to the
store, otherwise the host's metadata with one snapshot per
`v_host_scan_findings` row for that address. -/
def get_host_vulnerability_history (db : Store) (ip : String) :
    Option HostVulnerabilityHistory :=
  match lookupHostByIp db ip with
  | none => none
  | some host =>
    some
      { host_id := host.host_id
        ip_address := host.ip_address
        scan_target := host.scan_target
        scan_target_type := host.scan_target_type
        first_seen := host.first_seen
        last_seen := host.last_seen
        scans := (db.host_scan_findings.filter (fun r => r.ip_address = ip)).map
          (fun r => mkSnapshot db r ip) }

/-! ## Review state machine (`cerno_pkg/fs.py`) -/

/-- Plugin metadata as used by the display name in `fs.py`
(`plugin.plugin_id`, `plugin.plugin_name`). -/
structure Plugin where
  plugin_id : Nat
  plugin_name : String
deriving Repr, DecidableEq

/-- The display name built in `mark_review_complete` / `undo_review_complete`:
plugin id and name when a `Plugin` is supplied, otherwise the finding's
plugin id. -/
def displayName (f : Finding) (plugin : Option Plugin) : String :=
  match plugin with
  | some p => "Plugin " ++ toString p.plugin_id ++ ": " ++ p.plugin_name
  | none => "Plugin " ++ toString f.plugin_id

/-- Modelled from the spec: `db_transaction` together with
`Finding.update_review_state` (`database.py` and `models.py` are outside the
provided sources).  A transaction either raises the store's error or
atomically sets `review_state` to the given value; per §7 StoreFailure the
effect is all-or-nothing, so on error the finding is unchanged.
`store_error = none` means the store is healthy; `some e` means the
transaction raises with message `e`. -/
def db_update_review_state (store_error : Option String) (f : Finding)
    (state : String) : Except String Finding :=
  match store_error with
  | some e => Except.error e
  | none => Except.ok { f with review_state := state }

/-- The caller-visible outcome of one review-state mutation: the returned
boolean, the finding as left by the call, and the message printed
(`warn` / `ok` / `err` in the source). -/
structure MarkResult where
  success : Bool
  finding : Finding
  message : String
deriving Repr, DecidableEq

/-- `mark_review_complete(plugin_file, plugin)` from `cerno_pkg/fs.py`:
returns `False` with a warning if the finding is already `completed`;
otherwise sets `review_state = "completed"` inside a transaction and
returns `True`.  Any exception (a store failure) is caught, logged, and
turned into a `False` return. -/
def mark_review_complete (store_error : Option String) (f : Finding)
    (plugin : Option Plugin) : MarkResult :=
  if f.review_state = "completed" then
    ⟨false, f, "Already marked as review complete."⟩
  else
    match db_update_review_state store_error f "completed" with
    | Except.ok f2 =>
      ⟨true, f2, "Marked as review complete: " ++ displayName f plugin⟩
    | Except.error e =>
      ⟨false, f, "Failed to mark as review complete: " ++ e⟩

/-- `undo_review_complete(plugin_file, plugin)` from `cerno_pkg/fs.py`:
returns `False` with a warning if the finding is not `completed`;
otherwise sets `review_state = "pending"` inside a transaction and
returns `True`.  Any exception (a store failure) is caught, logged, and
turned into a `False` return. -/
def undo_review_complete (store_error : Option String) (f : Finding)
    (plugin : Option Plugin) : MarkResult :=
  if ¬ f.review_state = "completed" then
    ⟨false, f, "File is not marked as review complete."⟩
  else
    match db_update_review_state store_error f "pending" with
    | Except.ok f2 =>
      ⟨true, f2, "Removed review complete marker: " ++ displayName f plugin⟩
    | Except.error e =>
      ⟨false, f, "Failed to undo review complete: " ++ e⟩

/-- One invocation of the review-state mutation API, with the store healthy
or failing for that call. -/
inductive ReviewOp where
  | mark (store_error : Option String)
  | undo (store_error : Option String)
deriving Repr, DecidableEq

/-- Apply one mutation call to a finding, keeping the finding it leaves
behind. -/
def applyReviewOp (f : Finding) : ReviewOp → Finding
  | ReviewOp.mark e => (mark_review_complete e f none).finding
  | ReviewOp.undo e => (undo_review_complete e f none).finding

/-- Apply a sequence of mutation calls left to right. -/
def applyReviewOps (ops : List ReviewOp) (f : Finding) : Finding :=
  ops.foldl applyReviewOp f

/-! ## Session lifecycle (`cerno.py`) -/

/-- A saved review-session row: scan id, start timestamp, counters.
Timestamps are ticks (`Nat`); the source stores an ISO string and parses it
back with `datetime.fromisoformat`, an inverse pair that the tick model
collapses. -/
structure SessionRow where
  scan_id : Nat
  session_start : Nat
  reviewed_count : Nat
  completed_count : Nat
  skipped_count : Nat
deriving Repr, DecidableEq

/-- Modelled from the spec: `load_session(scan_id)` (`database.py` is outside
the provided sources) fetches the session row for a scan, `none` when no
session is open for it. -/
def load_session (sessions : List SessionRow) (sid : Nat) : Option SessionRow :=
  sessions.find? (fun s => s.scan_id = sid)

/-- Modelled from the spec: `delete_session(scan_id)` (`database.py` is
outside the provided sources) removes the session row for a scan. -/
def delete_session (sessions : List SessionRow) (sid : Nat) : List SessionRow :=
  sessions.filter (fun s => ¬ s.scan_id = sid)

/-- The scan-entry session logic of `main` in `cerno.py`: if a previous
session exists, resuming sets `session_start_time` to the saved
`session_start` (the store untouched); declining deletes the old row and
keeps the fresh process-start timestamp; with no previous session the
fresh timestamp is kept.  Returns the resulting `session_start_time` and
session table. -/
def resolveSession (sessions : List SessionRow) (sid : Nat)
    (process_start : Nat) (resume : Bool) : Nat × List SessionRow :=
  match load_session sessions sid with
  | some prev =>
    if resume then (prev.session_start, sessions)
    else (process_start, delete_session sessions sid)
  | none => (process_start, sessions)

/-- The elapsed-time calculation of the status line in `cerno.py`
(`datetime.now() - session_start_time`, in seconds). -/
def elapsedSeconds (session_start_time now : Nat) : Nat :=
  now - session_start_time

/-! ## Workflow mapping resolver -/

/-- One step of a verification workflow (configuration document entry). -/
structure WorkflowStep where
  title : String
  commands : List String
  notes : String
deriving Repr, DecidableEq

/-- One entry of a workflow configuration document: `plugin_id` may hold a
single id or a comma-separated list. -/
structure WorkflowEntry where
  plugin_id : String
  workflow_name : String
  description : String
  steps : List WorkflowStep
  references : List String
deriving Repr, DecidableEq

/-- Strip leading and trailing whitespace from a string (python `strip`),
written over the character list. -/
def trimString (s : String) : String :=
  ⟨((s.data.dropWhile Char.isWhitespace).reverse.dropWhile
      Char.isWhitespace).reverse⟩

/-- Split a character list at commas, accumulating the current segment in
reverse. -/
def splitCommaChars : List Char → List Char → List String
  | [], acc => [⟨acc.reverse⟩]
  | c :: rest, acc =>
    if c = ',' then ⟨acc.reverse⟩ :: splitCommaChars rest []
    else splitCommaChars rest (c :: acc)

/-- Split a string at commas (python `split(",")`). -/
def splitComma (s : String) : List String :=
  splitCommaChars s.data []

/-- The individual plugin ids declared by one entry: the comma-separated
`plugin_id` field split and trimmed. -/
def entryPluginIds (e : WorkflowEntry) : List String :=
  (splitComma e.plugin_id).map trimString

/-- Modelled from the spec: the workflow mapper (`workflow_mapper.py` is
outside the provided sources) loaded from a document's entry list.
Workflow objects are identified by their load position, so that two
entries with equal content stay distinct objects. -/
structure WorkflowMapper where
  entries : List WorkflowEntry
deriving Repr, DecidableEq

/-- Modelled from the spec: loading registers every id of an entry's
comma-separated `plugin_id` list as a key pointing to the same Workflow
object (here: the entry's load position, counted from `i`). -/
def registeredKeysFrom (i : Nat) : List WorkflowEntry → List (String × Nat)
  | [] => []
  | e :: rest =>
    (entryPluginIds e).map (fun pid => (pid, i)) ++ registeredKeysFrom (i + 1) rest

/-- The registered-key map of a loaded mapper: key → workflow object. -/
def WorkflowMapper.registeredKeys (m : WorkflowMapper) : List (String × Nat) :=
  registeredKeysFrom 0 m.entries

/-- Modelled from the spec: `get_workflow(id)` looks the id up in the
registered-key map; registration is by dict assignment, so the last
registration of a key wins. -/
def WorkflowMapper.get_workflow (m : WorkflowMapper) (pid : String) : Option Nat :=
  (m.registeredKeys.reverse.find? (fun q => q.1 = pid)).map (fun q => q.2)

/-- Modelled from the spec: `has_workflow(id)` is key membership. -/
def WorkflowMapper.has_workflow (m : WorkflowMapper) (pid : String) : Bool :=
  (m.get_workflow pid).isSome

/-- The multiset of workflow objects the key map points at. -/
def WorkflowMapper.workflowValues (m : WorkflowMapper) : List Nat :=
  m.registeredKeys.map (fun q => q.2)

/-- Modelled from the spec: `get_all_workflows()` returns the deduplicated
list of Workflow objects reachable from the key map. -/
def WorkflowMapper.get_all_workflows (m : WorkflowMapper) : List Nat :=
  m.workflowValues.dedup

/-- Modelled from the spec: `count()` reports the number of distinct
Workflow objects, not the number of registered keys. -/
def WorkflowMapper.count (m : WorkflowMapper) : Nat :=
  m.workflowValues.toFinset.card

/-! ## Spec-side rendering of the StoreFailure policy -/

/-- Modelled from the spec: §7 StoreFailure demands that a persistence error
during the transaction be propagated to the caller as a hard failure.  This
definition follows the spec's words (same guards as `mark_review_complete`,
but the transaction's error is re-raised); it exists to be compared with
the source's `mark_review_complete`, which catches the error. -/
def mark_review_complete_specStoreFailure (store_error : Option String)
    (f : Finding) (plugin : Option Plugin) : Except String MarkResult :=
  if f.review_state = "completed" then
    Except.ok ⟨false, f, "Already marked as review complete."⟩
  else
    match db_update_review_state store_error f "completed" with
    | Except.ok f2 =>
      Except.ok ⟨true, f2, "Marked as review complete: " ++ displayName f plugin⟩
    | Except.error e => Except.error e

/-! ## Concrete data for witnesses -/

/-- A `v_scan_plugin_summary` row with the metadata columns filled in. -/
def mkPluginRow (pid : Nat) (name : String) (sev : Nat) (label : String) :
    PluginRow :=
  ⟨pid, name, sev, label, false, none, 1⟩

/-- A small concrete store: scans 1/2 realise the spec's A={100,101},
B={100,101,102} example with hosts {H1,H2} vs {H1,H3}; scans 3/4 hold
plugins at severities {1,2,3} identically; scan id 99 and address
10.9.9.9 are absent. -/
def exDB : Store :=
  { scans :=
      [⟨1, "scan1", "2024-01-01"⟩, ⟨2, "scan2", "2024-02-01"⟩,
       ⟨3, "scan3", "2024-03-01"⟩, ⟨4, "scan4", "2024-04-01"⟩]
    hosts :=
      [⟨1, "192.168.1.1", "192.168.1.1", "ipv4", "2024-01-01", "2024-02-01"⟩,
       ⟨2, "192.168.1.2", "192.168.1.2", "ipv4", "2024-01-01", "2024-01-01"⟩,
       ⟨3, "192.168.1.3", "192.168.1.3", "ipv4", "2024-02-01", "2024-02-01"⟩]
    findings :=
      [⟨1, 1, 100, "pending"⟩, ⟨2, 1, 101, "pending"⟩,
       ⟨3, 2, 100, "pending"⟩, ⟨4, 2, 101, "pending"⟩, ⟨5, 2, 102, "pending"⟩]
    finding_affected_hosts := [(1, 1), (2, 2), (3, 1), (4, 3), (5, 3)]
    scan_plugin_summary :=
      [(1, mkPluginRow 100 "Plugin A" 3 "High"),
       (1, mkPluginRow 101 "Plugin B" 2 "Medium"),
       (2, mkPluginRow 100 "Plugin A" 3 "High"),
       (2, mkPluginRow 101 "Plugin B" 2 "Medium"),
       (2, mkPluginRow 102 "Plugin C" 4 "Critical"),
       (3, mkPluginRow 10 "Plugin L" 1 "Low"),
       (3, mkPluginRow 11 "Plugin M" 2 "Medium"),
       (3, mkPluginRow 12 "Plugin H" 3 "High"),
       (4, mkPluginRow 10 "Plugin L" 1 "Low"),
       (4, mkPluginRow 11 "Plugin M" 2 "Medium"),
       (4, mkPluginRow 12 "Plugin H" 3 "High")]
    host_scan_findings :=
      [⟨"192.168.1.1", 1, "scan1", "2024-01-01", 1, some 3, none, some 1,
        none, none, none⟩] }

/-- The comparison result for scans 1 → 2 of `exDB`. -/
def exRab : ScanComparisonResult := (compare_scans exDB 1 2 0).get (by rfl)

/-- The comparison result for scans 2 → 1 of `exDB`. -/
def exRba : ScanComparisonResult := (compare_scans exDB 2 1 0).get (by rfl)

/-- The comparison result for scans 3 → 4 of `exDB` at `min_severity = 3`. -/
def exR34 : ScanComparisonResult := (compare_scans exDB 3 4 3).get (by rfl)

/-- The comparison result for scans 1 → 2 of `exDB` at `min_severity = 4`. -/
def exRab4 : ScanComparisonResult := (compare_scans exDB 1 2 4).get (by rfl)

/-- The plugin-id set of a finding bucket, as the spec's examples read the
buckets (e.g. new = {102}). -/
def bucketPluginIds (rows : List PluginRow) : Finset Nat :=
  (rows.map (fun r => r.plugin_id)).toFinset

/-- A concrete pending finding. -/
def exPending : Finding := ⟨7, 1, 100, "pending"⟩

/-- A concrete completed finding. -/
def exCompleted : Finding := ⟨8, 1, 101, "completed"⟩

/-- A concrete session table: scan 5 has a saved session started at tick 1000
with counters (12, 7, 3). -/
def exSessions : List SessionRow := [⟨5, 1000, 12, 7, 3⟩]

/-- The three workflow entries of the repository's mapper test: entry 1 with
one plugin id, entry 2 with three comma-separated ids, entry 3 with one. -/
def exMapper : WorkflowMapper :=
  ⟨[⟨"12345", "Test Workflow 1", "First test workflow",
     [⟨"Step 1", ["command1"], "Note 1"⟩], ["https://example.com/1"]⟩,
    ⟨"67890,11111,22222", "Test Workflow 2",
     "Second test workflow with comma-separated IDs",
     [⟨"Step 2", ["command2"], "Note 2"⟩], ["https://example.com/2"]⟩,
    ⟨"33333", "Test Workflow 3", "Third test workflow",
     [⟨"Step 3", ["command3"], "Note 3"⟩], ["https://example.com/3"]⟩]⟩

/-! ## Helper lemmas -/

/-- Every row returned by the severity-filtered plugin query satisfies the
filter. -/
theorem mem_scanPlugins_severity {db : Store} {sid s : Nat} {row : PluginRow}
    (h : row ∈ scanPlugins db sid s) : s ≤ row.severity_int := by
  simp only [scanPlugins, List.mem_map, List.mem_filter,
    decide_eq_true_eq] at h
  obtain ⟨q, ⟨-, -, hsev⟩, rfl⟩ := h
  exact hsev

/-- Keeping the elements whose projection lies in `S` intersects the
projected id set with `S`. -/
theorem toFinset_map_filter_mem {α β : Type} [DecidableEq β] (g : α → β)
    (l : List α) (S : Finset β) :
    ((l.filter (fun a => g a ∈ S)).map g).toFinset = (l.map g).toFinset ∩ S := by
  ext x
  simp only [List.mem_toFinset, List.mem_map, List.mem_filter,
    decide_eq_true_eq, Finset.mem_inter]
  constructor
  · rintro ⟨a, ⟨ha, hS⟩, rfl⟩
    exact ⟨⟨a, ha, rfl⟩, hS⟩
  · rintro ⟨⟨a, ha, rfl⟩, hS⟩
    exact ⟨a, ⟨ha, hS⟩, rfl⟩

/-- `B ∩ (B \ A) = B \ A`. -/
theorem finset_inter_sdiff_left {α : Type} [DecidableEq α] (A B : Finset α) :
    B ∩ (B \ A) = B \ A := by
  ext x
  simp only [Finset.mem_inter, Finset.mem_sdiff]
  tauto

/-- `B ∩ (A ∩ B) = A ∩ B`. -/
theorem finset_inter_inter_left {α : Type} [DecidableEq α] (A B : Finset α) :
    B ∩ (A ∩ B) = A ∩ B := by
  ext x
  simp only [Finset.mem_inter]
  tauto

/-- Characterization of a successful `compare_scans`: each bucket is the
corresponding severity-filtered row list restricted to the set-difference /
intersection of the two scans' id sets, and the severity breakdowns tally
the finding buckets. -/
theorem compare_scans_eq_some {db : Store} {a b s : Nat}
    {r : ScanComparisonResult} (h : compare_scans db a b s = some r) :
    r.new_findings = (scanPlugins db b s).filter
        (fun x => x.plugin_id ∈ scanPluginIds db b s \ scanPluginIds db a s) ∧
    r.resolved_findings = (scanPlugins db a s).filter
        (fun x => x.plugin_id ∈ scanPluginIds db a s \ scanPluginIds db b s) ∧
    r.persistent_findings = (scanPlugins db b s).filter
        (fun x => x.plugin_id ∈ scanPluginIds db a s ∩ scanPluginIds db b s) ∧
    r.new_hosts = (scanHosts db b).filter
        (fun x => x.host_id ∈ scanHostIds db b \ scanHostIds db a) ∧
    r.removed_hosts = (scanHosts db a).filter
        (fun x => x.host_id ∈ scanHostIds db a \ scanHostIds db b) ∧
    r.persistent_hosts = (scanHosts db b).filter
        (fun x => x.host_id ∈ scanHostIds db a ∩ scanHostIds db b) ∧
    r.new_by_severity = severityCounts r.new_findings ∧
    r.resolved_by_severity = severityCounts r.resolved_findings ∧
    r.persistent_by_severity = severityCounts r.persistent_findings := by
  unfold compare_scans at h
  cases hA : lookupScan db a with
  | none =>
    rw [hA] at h
    exact Option.noConfusion h
  | some scan1 =>
    rw [hA] at h
    cases hB : lookupScan db b with
    | none =>
      rw [hB] at h
      exact Option.noConfusion h
    | some scan2 =>
      rw [hB] at h
      injection h with h2
      subst h2
      exact ⟨rfl, rfl, rfl, rfl, rfl, rfl, rfl, rfl, rfl⟩

/-- A single review-state mutation leaves the state alone or writes
`pending` or `completed`. -/
theorem applyReviewOp_state (f : Finding) (op : ReviewOp) :
    (applyReviewOp f op).review_state = f.review_state ∨
    (applyReviewOp f op).review_state = "pending" ∨
    (applyReviewOp f op).review_state = "completed" := by
  cases op with
  | mark e =>
    by_cases h : f.review_state = "completed" <;>
      cases e <;>
        simp [applyReviewOp, mark_review_complete, db_update_review_state, h]
  | undo e =>
    by_cases h : f.review_state = "completed" <;>
      cases e <;>
        simp [applyReviewOp, undo_review_complete, db_update_review_state, h]

/-! ## Claim theorems -/

/-- Claim C3: for every input where a referenced record does not exist, the
read operations return `none` and never raise: `compare_scans` returns
`none` when either scan id is absent from the store, and
`get_host_vulnerability_history` returns `none` when the host address is
unknown; both are total functions of the store, so no fault escapes. -/
theorem c3_notfound_returns_none (db : Store) (a b s : Nat) (ip : String)
    (h1 : lookupScan db a = none ∨ lookupScan db b = none)
    (h2 : lookupHostByIp db ip = none) :
    compare_scans db a b s = none ∧
    get_host_vulnerability_history db ip = none := by
  constructor
  · rcases h1 with h | h
    · cases hB : lookupScan db b <;> simp [compare_scans, h, hB]
    · cases hA : lookupScan db a <;> simp [compare_scans, hA, h]
  · simp [get_host_vulnerability_history, h2]

/-- Witness for C3 at the concrete store: scan id 99 and address 10.9.9.9
do not exist. -/
theorem c3_witness :
    compare_scans exDB 99 1 0 = none ∧
    get_host_vulnerability_history exDB "10.9.9.9" = none :=
  c3_notfound_returns_none exDB 99 1 0 "10.9.9.9" (Or.inl (by rfl)) (by rfl)

/-- Claim C4: on any finding that is not yet completed, the first
`mark_review_complete` succeeds and writes `completed`; the immediate second
call returns a boolean failure with the already-complete warning and leaves
the finding unchanged; `undo_review_complete` on a non-completed finding
returns a boolean failure without mutating it. -/
theorem c4_double_mark_fails (f : Finding) (p : Option Plugin)
    (h : ¬ f.review_state = "completed") :
    (mark_review_complete none f p).success = true ∧
    (mark_review_complete none f p).finding.review_state = "completed" ∧
    mark_review_complete none (mark_review_complete none f p).finding p =
      ⟨false, (mark_review_complete none f p).finding,
       "Already marked as review complete."⟩ ∧
    ∀ g : Finding, ¬ g.review_state = "completed" →
      undo_review_complete none g p =
        ⟨false, g, "File is not marked as review complete."⟩ := by
  refine ⟨?_, ?_, ?_, ?_⟩
  · simp [mark_review_complete, db_update_review_state, h]
  · simp [mark_review_complete, db_update_review_state, h]
  · simp [mark_review_complete, db_update_review_state, h]
  · intro g hg
    simp [undo_review_complete, hg]

/-- Witness for C4 at a concrete pending finding. -/
theorem c4_witness :
    (mark_review_complete none exPending none).success = true ∧
    mark_review_complete none (mark_review_complete none exPending none).finding
        none =
      ⟨false, (mark_review_complete none exPending none).finding,
       "Already marked as review complete."⟩ ∧
    undo_review_complete none exPending none =
      ⟨false, exPending, "File is not marked as review complete."⟩ := by
  have h := c4_double_mark_fails exPending none (by decide)
  exact ⟨h.1, h.2.2.1, h.2.2.2 exPending (by decide)⟩

/-- Claim C5: on a pending finding, `mark_review_complete` followed by
`undo_review_complete` succeeds in both calls and restores the finding
exactly (undo is the inverse of mark on pending findings). -/
theorem c5_mark_undo_roundtrip (f : Finding) (p q : Option Plugin)
    (h : f.review_state = "pending") :
    (mark_review_complete none f p).success = true ∧
    (undo_review_complete none (mark_review_complete none f p).finding q).success
      = true ∧
    (undo_review_complete none (mark_review_complete none f p).finding q).finding
      = f := by
  obtain ⟨fid, sid, pid, st⟩ := f
  simp only [Finding.review_state] at h
  subst h
  simp [mark_review_complete, undo_review_complete, db_update_review_state]

/-- Witness for C5 at a concrete pending finding. -/
theorem c5_witness :
    (mark_review_complete none exPending none).success = true ∧
    (undo_review_complete none (mark_review_complete none exPending none).finding
        none).finding = exPending := by
  have h := c5_mark_undo_roundtrip exPending none none (by decide)
  exact ⟨h.1, h.2.2⟩

/-- Counterexample for claim C6: at a concrete pending finding and a failing
store, the transaction does raise (`mark_review_complete_specStoreFailure`,
which follows the spec's propagation wording, surfaces the error), yet the
source's `mark_review_complete` returns an ordinary boolean failure with the
error only formatted into its message — the persistence error is caught,
not propagated to the caller as a hard failure. -/
theorem c6_counterexample :
    mark_review_complete_specStoreFailure (some "disk I/O error") exPending none
      = Except.error "disk I/O error" ∧
    mark_review_complete (some "disk I/O error") exPending none =
      ⟨false, exPending, "Failed to mark as review complete: disk I/O error"⟩ :=
  ⟨rfl, rfl⟩

/-- Claim C6 as amended: a persistence error raised inside the transaction is
caught and reported to the caller as a boolean failure carrying the error
text (never re-raised), and the operation is all-or-nothing — the finding
is returned unchanged. -/
theorem c6_store_error_swallowed (f : Finding) (p : Option Plugin) (e : String)
    (hf : ¬ f.review_state = "completed") :
    mark_review_complete (some e) f p =
      ⟨false, f, "Failed to mark as review complete: " ++ e⟩ ∧
    ∀ g : Finding, g.review_state = "completed" →
      undo_review_complete (some e) g p =
        ⟨false, g, "Failed to undo review complete: " ++ e⟩ := by
  constructor
  · simp [mark_review_complete, db_update_review_state, hf]
  · intro g hg
    simp [undo_review_complete, db_update_review_state, hg]

/-- Witness for the amended C6 at concrete findings and a concrete store
error. -/
theorem c6_witness :
    mark_review_complete (some "disk full") exPending none =
      ⟨false, exPending, "Failed to mark as review complete: " ++ "disk full"⟩ ∧
    undo_review_complete (some "disk full") exCompleted none =
      ⟨false, exCompleted, "Failed to undo review complete: " ++ "disk full"⟩ := by
  have h := c6_store_error_swallowed exPending none "disk full" (by decide)
  exact ⟨h.1, h.2 exCompleted (by decide)⟩

/-- Claim C7: with a saved session present, resuming restores the saved start
timestamp (the store untouched) and every later elapsed-time calculation is
measured from that original start, independent of the process-start (resume)
time; declining instead deletes the old session row and keeps the fresh
process-start timestamp. -/
theorem c7_resume_preserves_start (sessions : List SessionRow) (sid : Nat)
    (prev : SessionRow) (process_start t : Nat)
    (h : load_session sessions sid = some prev) :
    (resolveSession sessions sid process_start true).1 = prev.session_start ∧
    (resolveSession sessions sid process_start true).2 = sessions ∧
    elapsedSeconds (resolveSession sessions sid process_start true).1 t =
      t - prev.session_start ∧
    (resolveSession sessions sid process_start false).1 = process_start ∧
    load_session (resolveSession sessions sid process_start false).2 sid
      = none := by
  refine ⟨?_, ?_, ?_, ?_, ?_⟩ <;>
    simp [resolveSession, h, elapsedSeconds]
  simp only [load_session, delete_session]
  rw [List.find?_eq_none]
  intro x hx
  simp only [List.mem_filter, decide_eq_true_eq] at hx
  simpa using hx.2

/-- Witness for C7 at a concrete session table (saved start tick 1000,
process start 2000, current tick 5000). -/
theorem c7_witness :
    (resolveSession exSessions 5 2000 true).1 = 1000 ∧
    elapsedSeconds (resolveSession exSessions 5 2000 true).1 5000 = 4000 ∧
    (resolveSession exSessions 5 2000 false).1 = 2000 ∧
    load_session (resolveSession exSessions 5 2000 false).2 5 = none := by
  have h := c7_resume_preserves_start exSessions 5 ⟨5, 1000, 12, 7, 3⟩ 2000 5000
    (by rfl)
  exact ⟨h.1, h.2.2.1.trans (by norm_num), h.2.2.2.1, h.2.2.2.2⟩

/-- Claim C9: after any sequence of `mark_review_complete` /
`undo_review_complete` calls (with the store healthy or failing at each
call), a finding's review state is either untouched or one of the two
values the mutation API writes, `pending` or `completed`; in particular the
API never writes `reviewed`. -/
theorem c9_mutation_writes_pending_or_completed (ops : List ReviewOp)
    (f : Finding) :
    (applyReviewOps ops f).review_state = f.review_state ∨
    (applyReviewOps ops f).review_state = "pending" ∨
    (applyReviewOps ops f).review_state = "completed" := by
  induction ops generalizing f with
  | nil => exact Or.inl rfl
  | cons op rest ih =>
    have hstep := applyReviewOp_state f op
    have htail := ih (applyReviewOp f op)
    simp only [applyReviewOps, List.foldl_cons] at htail ⊢
    rcases htail with h | h | h
    · rcases hstep with h2 | h2 | h2
      · exact Or.inl (h.trans h2)
      · exact Or.inr (Or.inl (h.trans h2))
      · exact Or.inr (Or.inr (h.trans h2))
    · exact Or.inr (Or.inl h)
    · exact Or.inr (Or.inr h)

/-- Every key registered from position `i` on carries a workflow position
at least `i`. -/
theorem le_snd_of_mem_registeredKeysFrom :
    ∀ (l : List WorkflowEntry) (i : Nat) (q : String × Nat),
      q ∈ registeredKeysFrom i l → i ≤ q.2 := by
  intro l
  induction l with
  | nil =>
    intro i q hq
    simp [registeredKeysFrom] at hq
  | cons e rest ih =>
    intro i q hq
    simp only [registeredKeysFrom, List.mem_append, List.mem_map] at hq
    rcases hq with ⟨pid, -, rfl⟩ | hq
    · exact Nat.le_refl i
    · exact Nat.le_of_succ_le (ih (i + 1) q hq)

/-- Mapping a nonempty list to a constant gives the singleton id set. -/
theorem toFinset_const_map {α : Type} (xs : List α) (i : Nat) (hne : xs ≠ []) :
    (xs.map (fun _ => i)).toFinset = {i} := by
  ext x
  simp only [List.mem_toFinset, List.mem_map, Finset.mem_singleton]
  constructor
  · rintro ⟨a, -, rfl⟩
    rfl
  · rintro rfl
    obtain ⟨a, ha⟩ := List.exists_mem_of_ne_nil xs hne
    exact ⟨a, ha, rfl⟩

/-- When every entry declares at least one plugin id, the distinct workflow
objects reachable from the key map are exactly the loaded entries. -/
theorem card_values_registeredKeysFrom :
    ∀ (l : List WorkflowEntry) (i : Nat),
      (∀ e ∈ l, entryPluginIds e ≠ []) →
      ((registeredKeysFrom i l).map Prod.snd).toFinset.card = l.length := by
  intro l
  induction l with
  | nil =>
    intro i _
    simp [registeredKeysFrom]
  | cons e rest ih =>
    intro i hne
    have hrest := ih (i + 1) (fun x hx => hne x (List.mem_cons_of_mem e hx))
    have hhead : entryPluginIds e ≠ [] := hne e (List.mem_cons_self e rest)
    simp only [registeredKeysFrom, List.map_append, List.map_map,
      List.toFinset_append]
    have hcomp : (Prod.snd ∘ fun pid : String => (pid, i)) = fun _ => i := rfl
    rw [hcomp, toFinset_const_map _ i hhead]
    have hnotmem : i ∉ ((registeredKeysFrom (i + 1) rest).map Prod.snd).toFinset := by
      simp only [List.mem_toFinset, List.mem_map]
      rintro ⟨q, hq, heq⟩
      have := le_snd_of_mem_registeredKeysFrom rest (i + 1) q hq
      omega
    rw [← Finset.insert_eq, Finset.card_insert_of_not_mem hnotmem, hrest]
    simp

/-- On a list whose keys are distinct, `find?` by key returns the unique
pair holding that key. -/
theorem find?_eq_some_of_nodup_keys {β : Type} :
    ∀ (l : List (String × β)) (pid : String) (v : β),
      (l.map Prod.fst).Nodup → (pid, v) ∈ l →
      l.find? (fun q => q.1 = pid) = some (pid, v) := by
  intro l
  induction l with
  | nil =>
    intro pid v _ hmem
    simp at hmem
  | cons q rest ih =>
    intro pid v hnd hmem
    simp only [List.map_cons, List.nodup_cons] at hnd
    rcases List.mem_cons.mp hmem with hq | hrest
    · subst hq
      exact List.find?_cons_of_pos _ (by simp)
    · have hq1 : ¬ (q.1 = pid) := by
        intro hcontra
        exact hnd.1 (hcontra ▸ List.mem_map_of_mem Prod.fst hrest)
      rw [List.find?_cons_of_neg _ (by simpa using hq1)]
      exact ih pid v hnd.2 hrest

/-- Every plugin id declared by the entry at position `j` is registered as a
key for that position. -/
theorem mem_registeredKeysFrom_of_get :
    ∀ (l : List WorkflowEntry) (j i : Nat) (hj : j < l.length) (pid : String),
      pid ∈ entryPluginIds (l.get ⟨j, hj⟩) →
      (pid, i + j) ∈ registeredKeysFrom i l := by
  intro l
  induction l with
  | nil =>
    intro j i hj
    exact absurd hj (by simp)
  | cons e rest ih =>
    intro j i hj pid hpid
    cases j with
    | zero =>
      simp only [registeredKeysFrom, List.mem_append]
      left
      simpa using List.mem_map_of_mem (fun pid => (pid, i)) hpid
    | succ j2 =>
      have hj2 : j2 < rest.length := Nat.lt_of_succ_lt_succ hj
      have hrec := ih j2 (i + 1) hj2 pid hpid
      simp only [registeredKeysFrom, List.mem_append]
      right
      have harith : i + (j2 + 1) = (i + 1) + j2 := by omega
      rw [harith]
      exact hrec

/-- Claim C8: for a loaded mapper whose registered keys are distinct and
whose entries each declare at least one plugin id, `count()` equals
`len(get_all_workflows())` and equals the number of distinct Workflow
objects — the number of loaded entries, not registered keys — and every id
in an entry's comma-separated list resolves through `get_workflow` to that
same entry's workflow object. -/
theorem c8_count_distinct_workflows (m : WorkflowMapper)
    (hkeys : (m.registeredKeys.map Prod.fst).Nodup)
    (hne : ∀ e ∈ m.entries, entryPluginIds e ≠ []) :
    m.count = m.get_all_workflows.length ∧
    m.count = m.entries.length ∧
    ∀ (k : Nat) (hk : k < m.entries.length),
      ∀ pid ∈ entryPluginIds (m.entries.get ⟨k, hk⟩),
        m.get_workflow pid = some k := by
  refine ⟨List.card_toFinset _, card_values_registeredKeysFrom m.entries 0 hne,
    ?_⟩
  intro k hk pid hpid
  have hmem : (pid, k) ∈ m.registeredKeys := by
    have := mem_registeredKeysFrom_of_get m.entries k 0 hk pid hpid
    simpa using this
  have hmemrev : (pid, k) ∈ m.registeredKeys.reverse := List.mem_reverse.mpr hmem
  have hndrev : (m.registeredKeys.reverse.map Prod.fst).Nodup := by
    rw [List.map_reverse]
    exact List.nodup_reverse.mpr hkeys
  have hfind := find?_eq_some_of_nodup_keys m.registeredKeys.reverse pid k
    hndrev hmemrev
  simp [WorkflowMapper.get_workflow, hfind]

/-- Witness for C8 at the repository test's three entries: three distinct
workflows, and all three comma-separated ids of the second entry resolve to
it. -/
theorem c8_witness :
    exMapper.count = 3 ∧
    exMapper.get_workflow "67890" = some 1 ∧
    exMapper.get_workflow "11111" = some 1 ∧
    exMapper.get_workflow "22222" = some 1 := by
  have h := c8_count_distinct_workflows exMapper (by decide) (by decide)
  refine ⟨h.2.1.trans (by rfl), ?_, ?_, ?_⟩
  · exact h.2.2 1 (by decide) "67890" (by decide)
  · exact h.2.2 1 (by decide) "11111" (by decide)
  · exact h.2.2 1 (by decide) "22222" (by decide)

/-- Claim C1: for two existing scans, `compare_scans` classifies plugin ids
by set difference and intersection — new = candidate minus base, resolved =
base minus candidate, persistent = intersection — and swapping the
arguments exchanges the new and resolved plugin-id sets while preserving
the persistent plugin-id set. -/
theorem c1_compare_swap (db : Store) (a b s : Nat)
    (r r2 : ScanComparisonResult)
    (hab : compare_scans db a b s = some r)
    (hba : compare_scans db b a s = some r2) :
    bucketPluginIds r.new_findings =
      scanPluginIds db b s \ scanPluginIds db a s ∧
    bucketPluginIds r.resolved_findings =
      scanPluginIds db a s \ scanPluginIds db b s ∧
    bucketPluginIds r.persistent_findings =
      scanPluginIds db a s ∩ scanPluginIds db b s ∧
    bucketPluginIds r2.new_findings = bucketPluginIds r.resolved_findings ∧
    bucketPluginIds r2.resolved_findings = bucketPluginIds r.new_findings ∧
    bucketPluginIds r2.persistent_findings =
      bucketPluginIds r.persistent_findings := by
  obtain ⟨hn, hr, hp, -, -, -, -, -, -⟩ := compare_scans_eq_some hab
  obtain ⟨hn2, hr2, hp2, -, -, -, -, -, -⟩ := compare_scans_eq_some hba
  have en : bucketPluginIds r.new_findings =
      scanPluginIds db b s \ scanPluginIds db a s := by
    rw [hn, bucketPluginIds, toFinset_map_filter_mem]
    exact finset_inter_sdiff_left _ _
  have er : bucketPluginIds r.resolved_findings =
      scanPluginIds db a s \ scanPluginIds db b s := by
    rw [hr, bucketPluginIds, toFinset_map_filter_mem]
    exact finset_inter_sdiff_left _ _
  have ep : bucketPluginIds r.persistent_findings =
      scanPluginIds db a s ∩ scanPluginIds db b s := by
    rw [hp, bucketPluginIds, toFinset_map_filter_mem]
    exact finset_inter_inter_left _ _
  have en2 : bucketPluginIds r2.new_findings =
      scanPluginIds db a s \ scanPluginIds db b s := by
    rw [hn2, bucketPluginIds, toFinset_map_filter_mem]
    exact finset_inter_sdiff_left _ _
  have er2 : bucketPluginIds r2.resolved_findings =
      scanPluginIds db b s \ scanPluginIds db a s := by
    rw [hr2, bucketPluginIds, toFinset_map_filter_mem]
    exact finset_inter_sdiff_left _ _
  have ep2 : bucketPluginIds r2.persistent_findings =
      scanPluginIds db b s ∩ scanPluginIds db a s := by
    rw [hp2, bucketPluginIds, toFinset_map_filter_mem]
    exact finset_inter_inter_left _ _
  refine ⟨en, er, ep, ?_, ?_, ?_⟩
  · rw [en2, er]
  · rw [er2, en]
  · rw [ep2, ep, Finset.inter_comm]

/-- Witness for C1 at the concrete store: scans 1 = {100, 101} and
2 = {100, 101, 102}, compared both ways. -/
theorem c1_witness :
    bucketPluginIds exRab.new_findings =
      scanPluginIds exDB 2 0 \ scanPluginIds exDB 1 0 ∧
    bucketPluginIds exRab.resolved_findings =
      scanPluginIds exDB 1 0 \ scanPluginIds exDB 2 0 ∧
    bucketPluginIds exRab.persistent_findings =
      scanPluginIds exDB 1 0 ∩ scanPluginIds exDB 2 0 ∧
    bucketPluginIds exRba.new_findings =
      bucketPluginIds exRab.resolved_findings ∧
    bucketPluginIds exRba.resolved_findings =
      bucketPluginIds exRab.new_findings ∧
    bucketPluginIds exRba.persistent_findings =
      bucketPluginIds exRab.persistent_findings :=
  c1_compare_swap exDB 1 2 0 exRab exRba (by rfl) (by rfl)

/-- Claim C2: a successful `compare_scans` with minimum severity `s` admits
no row below severity `s` into any finding bucket, and every per-severity
breakdown is zero below `s`; in particular, for scans 3/4 of the concrete
store (severities {1,2,3} present identically) at `min_severity = 3` the
persistent total is 1. -/
theorem c2_min_severity_excludes (db : Store) (a b s : Nat)
    (r : ScanComparisonResult) (h : compare_scans db a b s = some r) :
    (∀ row : PluginRow,
        row ∈ r.new_findings ∨ row ∈ r.resolved_findings ∨
          row ∈ r.persistent_findings →
        s ≤ row.severity_int) ∧
    (∀ sev : Nat, sev < s →
        r.new_by_severity sev = 0 ∧ r.resolved_by_severity sev = 0 ∧
          r.persistent_by_severity sev = 0) ∧
    (compare_scans exDB 3 4 3).map ScanComparisonResult.total_persistent
      = some 1 := by
  obtain ⟨hn, hr, hp, -, -, -, hbn, hbr, hbp⟩ := compare_scans_eq_some h
  have hmem : ∀ row : PluginRow,
      row ∈ r.new_findings ∨ row ∈ r.resolved_findings ∨
        row ∈ r.persistent_findings →
      s ≤ row.severity_int := by
    intro row hrow
    rcases hrow with hcase | hcase | hcase
    · rw [hn] at hcase
      exact mem_scanPlugins_severity (List.mem_of_mem_filter hcase)
    · rw [hr] at hcase
      exact mem_scanPlugins_severity (List.mem_of_mem_filter hcase)
    · rw [hp] at hcase
      exact mem_scanPlugins_severity (List.mem_of_mem_filter hcase)
  refine ⟨hmem, ?_, by rfl⟩
  intro sev hsev
  have hzero : ∀ rows : List PluginRow,
      (∀ row ∈ rows, s ≤ row.severity_int) → severityCounts rows sev = 0 := by
    intro rows hall
    simp only [severityCounts, List.length_eq_zero, List.filter_eq_nil_iff]
    intro row hrowmem
    have := hall row hrowmem
    simp only [decide_eq_true_eq]
    omega
  refine ⟨?_, ?_, ?_⟩
  · rw [hbn]
    exact hzero _ (fun row hm => hmem row (Or.inl hm))
  · rw [hbr]
    exact hzero _ (fun row hm => hmem row (Or.inr (Or.inl hm)))
  · rw [hbp]
    exact hzero _ (fun row hm => hmem row (Or.inr (Or.inr hm)))

/-- Witness for C2: the concrete scans 3/4 at `min_severity = 3` report one
persistent finding. -/
theorem c2_witness :
    (compare_scans exDB 3 4 3).map ScanComparisonResult.total_persistent
      = some 1 :=
  (c2_min_severity_excludes exDB 1 2 0 exRab (by rfl)).2.2

/-- Claim C10: the host buckets of a successful `compare_scans` are the
hosts linked to each scan's findings classified by host-id set difference /
intersection, with no severity filter involved, so two runs at different
minimum severities produce identical host buckets. -/
theorem c10_host_buckets_ignore_severity (db : Store) (a b s s2 : Nat)
    (r r2 : ScanComparisonResult)
    (h : compare_scans db a b s = some r)
    (h2 : compare_scans db a b s2 = some r2) :
    r.new_hosts = (scanHosts db b).filter
        (fun x => x.host_id ∈ scanHostIds db b \ scanHostIds db a) ∧
    r.removed_hosts = (scanHosts db a).filter
        (fun x => x.host_id ∈ scanHostIds db a \ scanHostIds db b) ∧
    r.persistent_hosts = (scanHosts db b).filter
        (fun x => x.host_id ∈ scanHostIds db a ∩ scanHostIds db b) ∧
    r.new_hosts = r2.new_hosts ∧
    r.removed_hosts = r2.removed_hosts ∧
    r.persistent_hosts = r2.persistent_hosts := by
  obtain ⟨-, -, -, hnh, hrh, hph, -, -, -⟩ := compare_scans_eq_some h
  obtain ⟨-, -, -, hnh2, hrh2, hph2, -, -, -⟩ := compare_scans_eq_some h2
  exact ⟨hnh, hrh, hph, hnh.trans hnh2.symm, hrh.trans hrh2.symm,
    hph.trans hph2.symm⟩

/-- Witness for C10 at the concrete store: comparing scans 1/2 with
minimum severities 0 and 4 yields identical host buckets. -/
theorem c10_witness :
    exRab.new_hosts = (scanHosts exDB 2).filter
        (fun x => x.host_id ∈ scanHostIds exDB 2 \ scanHostIds exDB 1) ∧
    exRab.removed_hosts = (scanHosts exDB 1).filter
        (fun x => x.host_id ∈ scanHostIds exDB 1 \ scanHostIds exDB 2) ∧
    exRab.persistent_hosts = (scanHosts exDB 2).filter
        (fun x => x.host_id ∈ scanHostIds exDB 1 ∩ scanHostIds exDB 2) ∧
    exRab.new_hosts = exRab4.new_hosts ∧
    exRab.removed_hosts = exRab4.removed_hosts ∧
    exRab.persistent_hosts = exRab4.persistent_hosts :=
  c10_host_buckets_ignore_severity exDB 1 2 0 4 exRab exRab4 (by rfl) (by rfl)

end Cerno
